import Mathlib

/-!
Shallow embedding of the logplexc batching client, for checking its
specification.

Sources embedded here:
* `src/minimal.go` — `MiniStats`, `Bundle`, `MiniClient` with
  `BufferMessage` (four-argument form, with a host parameter) and
  `SwapBundle`.
* `src/logplexc.go` — `Stats`, `bundle`, `Client` with the
  three-argument `BufferMessage` (host hard-coded to `"1234"`) and the
  swap half of `PostMessages`.
* `src/multi.go` — `MultiStat`, `Multi`, `NewMulti`, `Close`,
  `BufferMessage`, `syncWorker` and the `statReq*` accounting helpers.

Modelling conventions: Go byte strings are modelled as `String`, one
`Char` per byte, so Go's `len` is `String.length`. The `uint64`
counters are modelled as `Nat`: every statement proved below is an
equation or inequality that is preserved by reduction modulo `2^64`,
so wrap-around cannot invalidate a transfer back to Go's values. The
`time.Time` argument is opaque except for its RFC3339 UTC rendering.
The HTTP exchange performed by a delivery worker is an external
collaborator; its result (transport error, or a completed exchange
with some status code) is an input to the worker model.
-/

namespace Logplexc

/-- Opaque-in-all-but-formatting model of Go's `time.Time`: the only
observation the embedded code makes of it is
`when.UTC().Format(time.RFC3339)`, modelled as the `utcRFC3339` field. -/
structure Time where
  utcRFC3339 : String

/-- Model of `when.UTC().Format(time.RFC3339)` from the Go standard
library: returns the RFC3339 rendering of the UTC instant. -/
def formatRFC3339 (t : Time) : String :=
  t.utcRFC3339

/-! ## minimal.go -/

/-- minimal.go `MiniStats`: running statistics on client operation.
`Buffered` is a Go `int` that the source only ever assigns from
`outbox.Len()`, hence modelled as `Nat`. -/
structure MiniStats where
  NumberFramed : Nat
  Buffered : Nat
deriving DecidableEq, Repr

/-- minimal.go `Bundle`: an embedded `MiniStats` plus the accrued
frame bytes (`bytes.Buffer` modelled as the string of bytes written so
far). -/
structure Bundle where
  stats : MiniStats
  outbox : String
deriving DecidableEq, Repr

/-- minimal.go `MiniClient`: the credential token (the only
configuration field the embedded operations read) and the active
bundle. -/
structure MiniClient where
  Token : String
  b : Bundle
deriving DecidableEq, Repr

/-- minimal.go `unsyncStats`: returns the bundle's embedded
`MiniStats`. -/
def unsyncMiniStats (b : Bundle) : MiniStats :=
  b.stats

/-- minimal.go `MiniClient.BufferMessage` (lines 99–116): formats the
syslog-style header, writes the length-prefixed frame `"%d %s%s"` to
the outbox, bumps `NumberFramed`, refreshes `Buffered` from the
outbox length, and returns the post-append statistics. -/
def MiniClient.bufferMessage (c : MiniClient) (when : Time)
    (host procId log : String) : MiniClient × MiniStats :=
  let ts := formatRFC3339 when
  let syslogHeader := "<134>1 " ++ ts ++ " " ++ host ++ " " ++
    c.Token ++ " " ++ procId ++ " - - "
  let msgLen := syslogHeader.length + log.length
  let outbox := c.b.outbox ++ (toString msgLen ++ " " ++ syslogHeader ++ log)
  let b : Bundle :=
    { stats := { NumberFramed := c.b.stats.NumberFramed + 1
                 Buffered := outbox.length }
      outbox := outbox }
  ({ c with b := b }, unsyncMiniStats b)

/-- minimal.go `MiniClient.SwapBundle` (lines 118–132): installs a
zero-valued fresh `Bundle` (`var newB Bundle`) and returns the old
one by value. -/
def MiniClient.swapBundle (c : MiniClient) : MiniClient × Bundle :=
  ({ c with b := { stats := { NumberFramed := 0, Buffered := 0 }, outbox := "" } },
   c.b)

/-! ## logplexc.go (the `Client` that multi.go wraps) -/

/-- logplexc.go `Stats`. -/
structure Stats where
  NumberFramed : Nat
  Buffered : Nat
deriving DecidableEq, Repr

/-- logplexc.go `bundle`: message count plus outbox bytes. -/
structure bundle where
  nFramed : Nat
  outbox : String
deriving DecidableEq, Repr

/-- logplexc.go `Client`: credential token plus the active bundle (the
URL and HTTP transport configuration are external collaborators and
are not read by any embedded operation). -/
structure Client where
  Token : String
  b : bundle
deriving DecidableEq, Repr

/-- logplexc.go `unsyncStats`: statistics of a bundle. -/
def unsyncStats (b : bundle) : Stats :=
  { NumberFramed := b.nFramed, Buffered := b.outbox.length }

/-- logplexc.go `Client.BufferMessage` (three-argument form; the host
field of the header is the constant `"1234"` in this source). -/
def Client.bufferMessage (c : Client) (when : Time)
    (procId log : String) : Client × Stats :=
  let ts := formatRFC3339 when
  let syslogHeader := "<134>1 " ++ ts ++ " 1234 " ++
    c.Token ++ " " ++ procId ++ " - - "
  let msgLen := syslogHeader.length + log.length
  let b : bundle :=
    { nFramed := c.b.nFramed + 1
      outbox := c.b.outbox ++ (toString msgLen ++ " " ++ syslogHeader ++ log) }
  ({ c with b := b }, unsyncStats b)

/-- Swap step of logplexc.go `Client.PostMessages`: under the swap
lock the active bundle is copied out and the client's bundle is reset
(`c.b.outbox = bytes.Buffer{}; c.b.nFramed = 0`); the copied bundle is
what the HTTP POST then sends. -/
def Client.postSwap (c : Client) : Client × bundle :=
  ({ c with b := { nFramed := 0, outbox := "" } }, c.b)

/-! ## multi.go -/

/-- multi.go `MultiStat` (lines 12–43). Note the field list: there are
message-level counters `Total`, `Dropped`, `Cancelled`, `Rejected`,
`Successful` and request-level counters `TotalRequests`,
`CancelRequests`, `RejectRequests`, `SuccessRequests` — the struct
has no `DroppedRequests` field. `Concurrency` is a Go `int32` gauge,
modelled as `Int`. -/
structure MultiStat where
  Concurrency : Int
  Total : Nat
  Dropped : Nat
  Cancelled : Nat
  Rejected : Nat
  Successful : Nat
  TotalRequests : Nat
  CancelRequests : Nat
  RejectRequests : Nat
  SuccessRequests : Nat
deriving DecidableEq, Repr

/-- Zero value of `MultiStat`, as left by the `Multi{...}` composite
literal in `NewMulti` (Go zero-initializes omitted fields). -/
def initMultiStat : MultiStat :=
  { Concurrency := 0, Total := 0, Dropped := 0, Cancelled := 0
    Rejected := 0, Successful := 0, TotalRequests := 0
    CancelRequests := 0, RejectRequests := 0, SuccessRequests := 0 }

/-- multi.go `statReqTotalUnsync` (lines 191–194). -/
def statReqTotalUnsync (st : MultiStat) (s : Stats) : MultiStat :=
  { st with Total := st.Total + s.NumberFramed
            TotalRequests := st.TotalRequests + 1 }

/-- multi.go `statReqSuccess` (lines 196–203): one locked update doing
`statReqTotalUnsync` plus the Successful/SuccessRequests bumps. -/
def statReqSuccess (st : MultiStat) (s : Stats) : MultiStat :=
  let st := statReqTotalUnsync st s
  { st with Successful := st.Successful + s.NumberFramed
            SuccessRequests := st.SuccessRequests + 1 }

/-- multi.go `statReqErr` (lines 205–212). -/
def statReqErr (st : MultiStat) (s : Stats) : MultiStat :=
  let st := statReqTotalUnsync st s
  { st with Cancelled := st.Cancelled + s.NumberFramed
            CancelRequests := st.CancelRequests + 1 }

/-- multi.go `statReqRej` (lines 214–221). -/
def statReqRej (st : MultiStat) (s : Stats) : MultiStat :=
  let st := statReqTotalUnsync st s
  { st with Rejected := st.Rejected + s.NumberFramed
            RejectRequests := st.RejectRequests + 1 }

/-- multi.go `Multi`: the counters, the wrapped `Client`, the token
bucket (modelled by the number of permits currently obtainable from
it), the size trigger (Go `int`, possibly non-positive) and the
finalize channel (modelled by whether it has been closed). -/
structure Multi where
  stat : MultiStat
  c : Client
  permits : Nat
  RequestSizeTrigger : Int
  closed : Bool
deriving DecidableEq, Repr

/-- Result of the external HTTP exchange attempted by a delivery
worker: either the POST could not be completed (non-nil `err` from
`PostMessages`, with a nil `*http.Response`), or the exchange
completed with some status code. -/
inductive TransportResult where
  | transportError
  | completed (status : Nat)
deriving DecidableEq, Repr

/-- How one `syncWorker` run ended: exited in the `default` branch of
the token `select` without a permit; recorded Cancelled and then hit
the nil-response dereference (`resp.Body`/`resp.StatusCode` with
`resp == nil`), a runtime panic; or completed recording Rejected or
Successful. -/
inductive WorkerOutcome where
  | noPermit
  | panicked
  | rejected
  | succeeded
deriving DecidableEq, Repr

/-- Go `http.StatusNoContent`. -/
def statusNoContent : Nat := 204

/-- multi.go `syncWorker` (lines 156–189), as the state transformation
of one worker run. The `Concurrency` gauge increment at entry is
undone by its deferred decrement on every exit path, so the net gauge
change of a completed run is zero and the gauge itself is treated by
the separate interleaving model below. The token taken from the
bucket is re-inserted by the deferred send on every path that took
one (Go runs deferred calls during a panic unwind as well), so the
net permit change is zero. Note what the source does *not* do: when
the `select` finds no token it merely returns — no counter is touched
and the client's bundle is left in place (the swap inside
`PostMessages` never ran); and there is no check of the swapped
bundle's message count anywhere in the function. On a transport error
the source calls `statReqErr` and then falls through (no `return`) to
dereference the nil response, a panic. -/
def Multi.syncWorker (m : Multi) (tr : TransportResult) :
    Multi × WorkerOutcome :=
  if m.permits = 0 then
    (m, WorkerOutcome.noPermit)
  else
    let swapped := m.c.postSwap
    let s := unsyncStats swapped.2
    match tr with
    | TransportResult.transportError =>
        ({ m with c := swapped.1, stat := statReqErr m.stat s },
         WorkerOutcome.panicked)
    | TransportResult.completed status =>
        if status = statusNoContent then
          ({ m with c := swapped.1, stat := statReqSuccess m.stat s },
           WorkerOutcome.succeeded)
        else
          ({ m with c := swapped.1, stat := statReqRej m.stat s },
           WorkerOutcome.rejected)

/-- The error message `Multi.BufferMessage` returns once the finalize
channel is closed. -/
def closedErrMsg : String :=
  "Failed trying to buffer a message: client already Closed"

/-- multi.go `Multi.BufferMessage` (lines 126–146): if the finalize
channel is closed the `select` takes the receive case and the call
returns the closed-client error without touching the wrapped client;
otherwise the message is buffered and, when the post-append
`Buffered` length reaches `RequestSizeTrigger` (Go `int` comparison),
a worker goroutine is spawned. The returned triple is (new state,
returned error, whether `go m.syncWorker()` was spawned). -/
def Multi.bufferMessage (m : Multi) (when : Time)
    (procId log : String) : Multi × Option String × Bool :=
  if m.closed then
    (m, some closedErrMsg, false)
  else
    let r := m.c.bufferMessage when procId log
    ({ m with c := r.1 }, none,
     decide (m.RequestSizeTrigger ≤ (r.2.Buffered : Int)))

/-- multi.go `Multi.Close` (lines 120–124): stops the ticker and
closes the finalize channel. -/
def Multi.close (m : Multi) : Multi :=
  { m with closed := true }

/-- multi.go `MultiConfig` (lines 66–71), keeping the fields the
embedded operations read (the embedded `Config`'s URL and HTTP
objects are external collaborators). `Concurrency` and
`RequestSizeTrigger` are Go `int`s, `TargetLogLatency` a
`time.Duration` (an `int64` count of nanoseconds). -/
structure MultiConfig where
  Token : String
  RequestSizeTrigger : Int
  Concurrency : Int
  TargetLogLatency : Int
deriving DecidableEq, Repr

/-- Outcome of running `NewMulti`: a constructed client, a returned
error, or a runtime panic (which produces neither a client nor an
error value). -/
inductive ConstructResult where
  | ok (m : Multi)
  | goError (msg : String)
  | crashed (msg : String)
deriving DecidableEq, Repr

/-- Whether construction yielded a client. -/
def ConstructResult.isOk : ConstructResult → Bool
  | ConstructResult.ok _ => true
  | _ => false

/-- multi.go `NewMulti` (lines 73–118). `NewClient` (logplexc.go)
never returns a non-nil error, so the only early exit is the call
`time.NewTicker(cfg.TargetLogLatency)` in the composite literal: the
Go standard library's `NewTicker` panics with "non-positive interval
for NewTicker" whenever the duration is `<= 0`. On success the
counters start at their zero values, the finalize channel is open,
and the token-supplying goroutine makes `cfg.Concurrency` permits
obtainable from the bucket (none when `cfg.Concurrency <= 0`, since
its loop body never runs). -/
def NewMulti (cfg : MultiConfig) : ConstructResult :=
  if cfg.TargetLogLatency ≤ 0 then
    ConstructResult.crashed "non-positive interval for NewTicker"
  else
    ConstructResult.ok
      { stat := initMultiStat
        c := { Token := cfg.Token, b := { nFramed := 0, outbox := "" } }
        permits := cfg.Concurrency.toNat
        RequestSizeTrigger := cfg.RequestSizeTrigger
        closed := false }

/-! ## Interleaving models

Two aspects of multi.go are inherently about interleaved executions:
which `MultiStat` values are reachable through the accounting
operations, and the value of the `Concurrency` gauge while several
worker goroutines are alive at once. Each gets a small reachability
relation below.
-/

/-- MultiStat values reachable in a run of the program: the counters
start at the zero value and are mutated only by the three locked
accounting operations (each applied to the statistics of some posted
bundle) and by the atomic adds on the `Concurrency` gauge at worker
entry and exit (multi.go lines 157–158). The no-token branch of
`syncWorker` and `Multi.BufferMessage` touch no counter. -/
inductive ReachableStat : MultiStat → Prop where
  | init : ReachableStat initMultiStat
  | err : ∀ st s, ReachableStat st → ReachableStat (statReqErr st s)
  | rej : ∀ st s, ReachableStat st → ReachableStat (statReqRej st s)
  | success : ∀ st s, ReachableStat st → ReachableStat (statReqSuccess st s)
  | gauge : ∀ st g, ReachableStat st →
      ReachableStat { st with Concurrency := g }

/-- Both accounting identities of the spec, over the counters the
source declares: the request-level total against the three
request-level outcome counters that exist, and the message-level
total against all four message-level outcome counters. -/
def statEquations (st : MultiStat) : Prop :=
  st.TotalRequests =
    st.CancelRequests + st.RejectRequests + st.SuccessRequests ∧
  st.Total = st.Dropped + st.Cancelled + st.Rejected + st.Successful

instance (st : MultiStat) : Decidable (statEquations st) := by
  unfold statEquations
  exact inferInstance

/-- State of the `Concurrency` gauge interleaving model: the gauge's
current value, and how many `syncWorker` goroutines are currently
between the entry increment (multi.go line 157) and the deferred
decrement (line 158). -/
structure GaugeState where
  Concurrency : Int
  active : Nat
deriving DecidableEq, Repr

/-- Gauge states reachable by interleaving worker goroutines. `enter`
is unguarded: `go m.syncWorker()` is spawned by every qualifying
`BufferMessage` call and every ticker tick, and each spawned
goroutine executes the entry increment before it ever consults the
token bucket, so any number of workers can be inside the gauge window
at once. `exit` is the deferred decrement of a worker that had
entered. -/
inductive GaugeReach : GaugeState → Prop where
  | init : GaugeReach { Concurrency := 0, active := 0 }
  | enter : ∀ s, GaugeReach s →
      GaugeReach { Concurrency := s.Concurrency + 1, active := s.active + 1 }
  | leave : ∀ s, GaugeReach s → 0 < s.active →
      GaugeReach { Concurrency := s.Concurrency - 1, active := s.active - 1 }

end Logplexc

namespace Logplexc

/-! ## Outcome-delta predicates

Used to state which counters one accounting update moved. Each
`...Bump` predicate pins every outcome counter, so that satisfying one
of them says the named outcome pair moved and the other outcome
counters did not: recording "exactly one outcome category". -/

/-- Shared totals moved by every accounting update: `Total` by the
posted bundle's message count, `TotalRequests` by one. -/
def totalsBump (old new : MultiStat) (n : Nat) : Prop :=
  new.Total = old.Total + n ∧ new.TotalRequests = old.TotalRequests + 1

/-- Only the Cancelled/CancelRequests pair moved among the outcome
counters. -/
def cancelledBump (old new : MultiStat) (n : Nat) : Prop :=
  new.Cancelled = old.Cancelled + n ∧
  new.CancelRequests = old.CancelRequests + 1 ∧
  new.Rejected = old.Rejected ∧ new.RejectRequests = old.RejectRequests ∧
  new.Successful = old.Successful ∧
  new.SuccessRequests = old.SuccessRequests ∧
  new.Dropped = old.Dropped

/-- Only the Rejected/RejectRequests pair moved among the outcome
counters. -/
def rejectedBump (old new : MultiStat) (n : Nat) : Prop :=
  new.Rejected = old.Rejected + n ∧
  new.RejectRequests = old.RejectRequests + 1 ∧
  new.Cancelled = old.Cancelled ∧ new.CancelRequests = old.CancelRequests ∧
  new.Successful = old.Successful ∧
  new.SuccessRequests = old.SuccessRequests ∧
  new.Dropped = old.Dropped

/-- Only the Successful/SuccessRequests pair moved among the outcome
counters. -/
def successfulBump (old new : MultiStat) (n : Nat) : Prop :=
  new.Successful = old.Successful + n ∧
  new.SuccessRequests = old.SuccessRequests + 1 ∧
  new.Cancelled = old.Cancelled ∧ new.CancelRequests = old.CancelRequests ∧
  new.Rejected = old.Rejected ∧ new.RejectRequests = old.RejectRequests ∧
  new.Dropped = old.Dropped

/-- C1: at every reachable state of the Multi client the accounting
identities hold: `TotalRequests` equals the sum of the request-level
outcome counters the source declares (`CancelRequests`,
`RejectRequests`, `SuccessRequests`; `MultiStat` has no
`DroppedRequests` field and no operation records a dropped request,
so that term of the claimed identity is identically zero), and
`Total = Dropped + Cancelled + Rejected + Successful`, where
`Dropped` moreover stays zero because no code path increments it.
Each of the three outcome-recording operations preserves both
identities from any state satisfying them. -/
theorem multi_stat_accounting :
    (∀ st, ReachableStat st → statEquations st ∧ st.Dropped = 0) ∧
    (∀ st s, statEquations st →
      statEquations (statReqErr st s) ∧
      statEquations (statReqRej st s) ∧
      statEquations (statReqSuccess st s)) := by
  have step : ∀ st s, statEquations st →
      statEquations (statReqErr st s) ∧
      statEquations (statReqRej st s) ∧
      statEquations (statReqSuccess st s) := by
    intro st s h
    simp only [statEquations, statReqErr, statReqRej, statReqSuccess,
      statReqTotalUnsync] at h ⊢
    omega
  refine ⟨?_, step⟩
  intro st h
  induction h with
  | init => exact ⟨by decide, rfl⟩
  | err st s h ih => exact ⟨(step st s ih.1).1, ih.2⟩
  | rej st s h ih => exact ⟨(step st s ih.1).2.1, ih.2⟩
  | success st s h ih => exact ⟨(step st s ih.1).2.2, ih.2⟩
  | gauge st g h ih => exact ⟨ih.1, ih.2⟩

/-- C1 witness: the identities hold concretely after recording one
successful post of a three-message bundle from the initial counters. -/
theorem multi_stat_accounting_witness :
    statEquations
      (statReqSuccess initMultiStat { NumberFramed := 3, Buffered := 40 }) :=
  (multi_stat_accounting.2 initMultiStat
    { NumberFramed := 3, Buffered := 40 } (by decide)).2.2

end Logplexc

namespace Logplexc

/-- C2: for every delivery attempt that found a permit and a
non-empty bundle, exactly one outcome category is recorded — a
transport error records Cancelled, a completed exchange with a status
other than "no content" records Rejected, and a "no content" status
records Successful — and in each case the `Total`/`TotalRequests`
increments happen in the same single locked accounting update (each
`statReq*` helper takes the Stats lock once around both). -/
theorem syncWorker_one_outcome (m : Multi) (tr : TransportResult)
    (hperm : 0 < m.permits) (_hne : 0 < m.c.b.nFramed) :
    totalsBump m.stat (m.syncWorker tr).1.stat m.c.b.nFramed ∧
    (match tr with
     | TransportResult.transportError =>
         cancelledBump m.stat (m.syncWorker tr).1.stat m.c.b.nFramed
     | TransportResult.completed status =>
         if status = statusNoContent then
           successfulBump m.stat (m.syncWorker tr).1.stat m.c.b.nFramed
         else
           rejectedBump m.stat (m.syncWorker tr).1.stat m.c.b.nFramed) := by
  have hz : ¬ m.permits = 0 := Nat.pos_iff_ne_zero.mp hperm
  cases tr with
  | transportError =>
      simp only [Multi.syncWorker, if_neg hz, totalsBump, cancelledBump,
        statReqErr, statReqTotalUnsync, unsyncStats, Client.postSwap]
      simp
  | completed status =>
      by_cases hst : status = statusNoContent
      · simp only [Multi.syncWorker, if_neg hz, if_pos hst, totalsBump,
          successfulBump, statReqSuccess, statReqTotalUnsync, unsyncStats,
          Client.postSwap]
        simp
      · simp only [Multi.syncWorker, if_neg hz, if_neg hst, totalsBump,
          rejectedBump, statReqRej, statReqTotalUnsync, unsyncStats,
          Client.postSwap]
        simp

/-- C2 witness: concrete client with one permit and a two-message
bundle, completed exchange with status 204: the totals move together
with the Successful pair and no other outcome counter moves. -/
theorem syncWorker_one_outcome_witness :
    totalsBump
      ({ stat := initMultiStat
         c := { Token := "t", b := { nFramed := 2, outbox := "xy" } }
         permits := 1, RequestSizeTrigger := 0, closed := false } :
          Multi).stat
      (({ stat := initMultiStat
          c := { Token := "t", b := { nFramed := 2, outbox := "xy" } }
          permits := 1, RequestSizeTrigger := 0, closed := false } :
           Multi).syncWorker (TransportResult.completed 204)).1.stat 2 ∧
    successfulBump
      ({ stat := initMultiStat
         c := { Token := "t", b := { nFramed := 2, outbox := "xy" } }
         permits := 1, RequestSizeTrigger := 0, closed := false } :
          Multi).stat
      (({ stat := initMultiStat
          c := { Token := "t", b := { nFramed := 2, outbox := "xy" } }
          permits := 1, RequestSizeTrigger := 0, closed := false } :
           Multi).syncWorker (TransportResult.completed 204)).1.stat 2 := by
  have h := syncWorker_one_outcome
    { stat := initMultiStat
      c := { Token := "t", b := { nFramed := 2, outbox := "xy" } }
      permits := 1, RequestSizeTrigger := 0, closed := false }
    (TransportResult.completed 204) (by decide) (by decide)
  simpa [statusNoContent] using h

/-- C3 counterexample: a worker run on a client holding a one-message
bundle with no permit obtainable leaves the whole client state
unchanged — in particular `Dropped` is not incremented by the
bundle's message count (it stays 0 instead of becoming 1) and the
bundle's bytes are retained, not discarded. -/
theorem syncWorker_noPermit_counterexample :
    (({ stat := initMultiStat
        c := { Token := "t", b := { nFramed := 1, outbox := "9 <134>1 m" } }
        permits := 0, RequestSizeTrigger := 100, closed := false } :
         Multi).syncWorker TransportResult.transportError).1 =
      { stat := initMultiStat
        c := { Token := "t", b := { nFramed := 1, outbox := "9 <134>1 m" } }
        permits := 0, RequestSizeTrigger := 100, closed := false } ∧
    ¬ (({ stat := initMultiStat
          c := { Token := "t", b := { nFramed := 1, outbox := "9 <134>1 m" } }
          permits := 0, RequestSizeTrigger := 100, closed := false } :
           Multi).syncWorker TransportResult.transportError).1.stat.Dropped =
        1 := by
  decide

/-- C3 amended: when the non-blocking permit acquisition fails, the
worker returns from the `default` branch at once — no counter is
touched (there is no Drop accounting; `Dropped` and the rest are left
as they were) and the client's bundle is left in place, its bytes
retained for a later worker rather than discarded (the swap inside
`PostMessages` never runs). -/
theorem syncWorker_noPermit (m : Multi) (tr : TransportResult)
    (h : m.permits = 0) :
    m.syncWorker tr = (m, WorkerOutcome.noPermit) := by
  simp [Multi.syncWorker, h]

/-- C3 witness: the no-permit exit on a concrete client with a
buffered message. -/
theorem syncWorker_noPermit_witness :
    ({ stat := initMultiStat
       c := { Token := "t", b := { nFramed := 3, outbox := "abc" } }
       permits := 0, RequestSizeTrigger := 5, closed := false } :
        Multi).syncWorker (TransportResult.completed 204) =
      ({ stat := initMultiStat
         c := { Token := "t", b := { nFramed := 3, outbox := "abc" } }
         permits := 0, RequestSizeTrigger := 5, closed := false },
       WorkerOutcome.noPermit) :=
  syncWorker_noPermit
    { stat := initMultiStat
      c := { Token := "t", b := { nFramed := 3, outbox := "abc" } }
      permits := 0, RequestSizeTrigger := 5, closed := false }
    (TransportResult.completed 204) rfl

/-- C4 counterexample: a worker run whose swap yields a zero-count
bundle (the buffer store is empty) with a permit obtainable does not
exit before the limiter: it takes the permit (the run does not end in
the no-permit branch) and updates the Stats counters —
`TotalRequests` and `SuccessRequests` become 1. -/
theorem syncWorker_emptySwap_counterexample :
    (({ stat := initMultiStat
        c := { Token := "t", b := { nFramed := 0, outbox := "" } }
        permits := 1, RequestSizeTrigger := 100, closed := false } :
         Multi).syncWorker (TransportResult.completed 204)).2 ≠
      WorkerOutcome.noPermit ∧
    ¬ (({ stat := initMultiStat
          c := { Token := "t", b := { nFramed := 0, outbox := "" } }
          permits := 1, RequestSizeTrigger := 100, closed := false } :
           Multi).syncWorker (TransportResult.completed 204)).1.stat =
        initMultiStat := by
  decide

/-- C4 amended: `syncWorker` never checks the swapped bundle's
message count. A worker run on an empty buffer store with a permit
obtainable acquires the permit, posts the empty bundle, and records
an outcome whose message count is zero: `TotalRequests` increments by
one while every message-level counter is unchanged. (Only the
periodic ticker goroutine checks `NumberFramed > 0`, and it does so
before spawning the worker, not inside it.) -/
theorem syncWorker_emptySwap (m : Multi) (tr : TransportResult)
    (hperm : 0 < m.permits) (hempty : m.c.b.nFramed = 0) :
    (m.syncWorker tr).2 ≠ WorkerOutcome.noPermit ∧
    (m.syncWorker tr).1.stat.TotalRequests = m.stat.TotalRequests + 1 ∧
    (m.syncWorker tr).1.stat.Total = m.stat.Total ∧
    (m.syncWorker tr).1.stat.Dropped = m.stat.Dropped ∧
    (m.syncWorker tr).1.stat.Cancelled = m.stat.Cancelled ∧
    (m.syncWorker tr).1.stat.Rejected = m.stat.Rejected ∧
    (m.syncWorker tr).1.stat.Successful = m.stat.Successful := by
  have hz : ¬ m.permits = 0 := Nat.pos_iff_ne_zero.mp hperm
  cases tr with
  | transportError =>
      simp [Multi.syncWorker, if_neg hz, statReqErr, statReqTotalUnsync,
        unsyncStats, Client.postSwap, hempty]
  | completed status =>
      by_cases hst : status = statusNoContent <;>
        simp [Multi.syncWorker, if_neg hz, hst, statReqSuccess, statReqRej,
          statReqTotalUnsync, unsyncStats, Client.postSwap, hempty]

/-- C4 witness: the amended behavior on a concrete empty-store client
with one permit and a rejected (non-204) exchange. -/
theorem syncWorker_emptySwap_witness :
    (({ stat := initMultiStat
        c := { Token := "t", b := { nFramed := 0, outbox := "" } }
        permits := 1, RequestSizeTrigger := 100, closed := false } :
         Multi).syncWorker (TransportResult.completed 200)).2 ≠
      WorkerOutcome.noPermit ∧
    (({ stat := initMultiStat
        c := { Token := "t", b := { nFramed := 0, outbox := "" } }
        permits := 1, RequestSizeTrigger := 100, closed := false } :
         Multi).syncWorker
        (TransportResult.completed 200)).1.stat.TotalRequests = 1 := by
  have h := syncWorker_emptySwap
    { stat := initMultiStat
      c := { Token := "t", b := { nFramed := 0, outbox := "" } }
      permits := 1, RequestSizeTrigger := 100, closed := false }
    (TransportResult.completed 200) (by decide) rfl
  exact ⟨h.1, h.2.1⟩

end Logplexc

namespace Logplexc

/-- C5: once `Close` has been called (the finalize channel is
closed), every subsequent `BufferMessage` call takes the finalize
branch of the `select`: it returns the closed-client error, the whole
client state — in particular the active bundle — is unchanged (the
message was not handed to the wrapped client), and no worker
goroutine is spawned. -/
theorem bufferMessage_after_close (m : Multi) (when : Time)
    (procId log : String) :
    (m.close).bufferMessage when procId log =
      (m.close, some closedErrMsg, false) := by
  simp [Multi.close, Multi.bufferMessage]

/-- C7 counterexample: construction with `TargetLogLatency = 0` does
not succeed — `time.NewTicker(0)` panics, so `NewMulti` yields no
client at all (rather than a client with the periodic path disabled). -/
theorem newMulti_zero_latency_counterexample :
    (NewMulti { Token := "t", RequestSizeTrigger := 100
                Concurrency := 1, TargetLogLatency := 0 }).isOk = false ∧
    NewMulti { Token := "t", RequestSizeTrigger := 100
               Concurrency := 1, TargetLogLatency := 0 } =
      ConstructResult.crashed "non-positive interval for NewTicker" := by
  decide

/-- C7 amended: construction yields a client exactly when
`TargetLogLatency` is positive. For every non-positive flush latency
— zero included — `time.NewTicker` panics inside `NewMulti`, so no
client is produced; but the failure is a runtime panic, not a
returned construction error (the only error return, from `NewClient`,
never fires). There is no configuration in which a client is produced
without the periodic ticker. -/
theorem newMulti_latency (cfg : MultiConfig) :
    ((NewMulti cfg).isOk = true ↔ 0 < cfg.TargetLogLatency) ∧
    (cfg.TargetLogLatency ≤ 0 →
      NewMulti cfg =
        ConstructResult.crashed "non-positive interval for NewTicker") := by
  unfold NewMulti
  by_cases h : cfg.TargetLogLatency ≤ 0
  · simp only [if_pos h, ConstructResult.isOk]
    exact ⟨⟨fun h2 => absurd h2 (by decide), fun h2 => absurd h2 (by omega)⟩,
      fun _ => trivial⟩
  · simp only [if_neg h, ConstructResult.isOk]
    exact ⟨⟨fun _ => by omega, fun _ => trivial⟩, fun h2 => absurd h2 h⟩

/-- C7 witness: the amended statement applied at a negative flush
latency: construction panics and yields no client. -/
theorem newMulti_latency_witness :
    NewMulti { Token := "t", RequestSizeTrigger := 100
               Concurrency := 1, TargetLogLatency := -5 } =
      ConstructResult.crashed "non-positive interval for NewTicker" :=
  (newMulti_latency
    { Token := "t", RequestSizeTrigger := 100
      Concurrency := 1, TargetLogLatency := -5 }).2 (by decide)

/-- C6 counterexample: with a configuration whose `Concurrency`
permit count is 1 (a configuration `NewMulti` accepts), the gauge
state with value 2 is reachable — two worker goroutines spawned
back-to-back each execute the entry increment before either consults
the token bucket — and 2 exceeds the configured permit count. -/
theorem gauge_exceeds_permits_counterexample :
    GaugeReach { Concurrency := 2, active := 2 } ∧
    (NewMulti { Token := "t", RequestSizeTrigger := 100
                Concurrency := 1, TargetLogLatency := 1 }).isOk = true ∧
    ¬ ({ Concurrency := 2, active := 2 } : GaugeState).Concurrency ≤
        ({ Token := "t", RequestSizeTrigger := 100
           Concurrency := 1, TargetLogLatency := 1 } :
            MultiConfig).Concurrency := by
  refine ⟨?_, by decide, by decide⟩
  have h1 := GaugeReach.enter _ GaugeReach.init
  have h2 := GaugeReach.enter _ h1
  simpa using h2

/-- C6 amended: the gauge always equals the number of worker
goroutines currently inside the increment/decrement window, so it
never goes negative; but it is not bounded by the configured permit
count, because a worker increments it on entry, before the permit
acquisition. -/
theorem gauge_eq_active (s : GaugeState) (h : GaugeReach s) :
    s.Concurrency = (s.active : Int) ∧ 0 ≤ s.Concurrency := by
  induction h with
  | init => exact ⟨rfl, le_refl 0⟩
  | enter s h ih =>
      refine ⟨?_, ?_⟩ <;> simp <;> omega
  | leave s h hpos ih =>
      refine ⟨?_, ?_⟩ <;> simp <;> omega

/-- C6 witness: the amended statement at the reachable one-worker
state. -/
theorem gauge_eq_active_witness :
    ({ Concurrency := 1, active := 1 } : GaugeState).Concurrency =
      ((1 : Nat) : Int) ∧
    0 ≤ ({ Concurrency := 1, active := 1 } : GaugeState).Concurrency := by
  have h := gauge_eq_active { Concurrency := 1, active := 1 }
    (by simpa using GaugeReach.enter _ GaugeReach.init)
  exact h

end Logplexc

namespace Logplexc

/-- C8: `MiniClient.BufferMessage` appends to the active bundle
exactly the frame `"%d %s%s"`: the decimal byte length of
header-plus-payload, a space, the header
`"<134>1 " ++ RFC3339-UTC(when) ++ " " ++ host ++ " " ++ token ++
" " ++ procId ++ " - - "`, then the raw log bytes. The bundle's
message count grows by exactly one, the returned statistics are the
bundle's post-append statistics and carry the post-append byte
length, and the buffer grew by exactly the frame's length. -/
theorem miniBufferMessage_frame (c : MiniClient) (when : Time)
    (host procId log : String) :
    (c.bufferMessage when host procId log).1.b.outbox =
      c.b.outbox ++
        (toString
           (("<134>1 " ++ formatRFC3339 when ++ " " ++ host ++ " " ++
             c.Token ++ " " ++ procId ++ " - - ").length + log.length) ++
         " " ++
         ("<134>1 " ++ formatRFC3339 when ++ " " ++ host ++ " " ++
          c.Token ++ " " ++ procId ++ " - - ") ++ log) ∧
    (c.bufferMessage when host procId log).1.b.stats.NumberFramed =
      c.b.stats.NumberFramed + 1 ∧
    (c.bufferMessage when host procId log).2 =
      (c.bufferMessage when host procId log).1.b.stats ∧
    (c.bufferMessage when host procId log).2.Buffered =
      (c.bufferMessage when host procId log).1.b.outbox.length ∧
    (c.bufferMessage when host procId log).2.Buffered =
      c.b.outbox.length +
        (toString
           (("<134>1 " ++ formatRFC3339 when ++ " " ++ host ++ " " ++
             c.Token ++ " " ++ procId ++ " - - ").length + log.length) ++
         " " ++
         ("<134>1 " ++ formatRFC3339 when ++ " " ++ host ++ " " ++
          c.Token ++ " " ++ procId ++ " - - ") ++ log).length ∧
    (c.bufferMessage when host procId log).1.Token = c.Token := by
  refine ⟨rfl, rfl, rfl, rfl, ?_, rfl⟩
  simp [MiniClient.bufferMessage, unsyncMiniStats]

/-- C9: `MiniClient.SwapBundle` returns the previous active bundle by
value and leaves the client holding a fresh bundle with zero message
count, zero recorded byte length and an empty byte buffer; since the
previous bundle is returned unchanged, calling it when the active
bundle is already empty simply returns that empty bundle. -/
theorem swapBundle_swap (c : MiniClient) :
    (c.swapBundle).2 = c.b ∧
    (c.swapBundle).1.b.stats.NumberFramed = 0 ∧
    (c.swapBundle).1.b.stats.Buffered = 0 ∧
    (c.swapBundle).1.b.outbox = "" ∧
    (c.swapBundle).1.Token = c.Token :=
  ⟨rfl, rfl, rfl, rfl, rfl⟩

/-- C10: with a non-positive `RequestSizeTrigger`, every
`BufferMessage` call on a non-closed client returns no error and
spawns a delivery worker: the post-append buffer length is at least
the appended frame's length, which is positive, so the Go comparison
`s.Buffered >= m.RequestSizeTrigger` holds whenever the trigger is at
most zero. -/
theorem bufferMessage_zero_trigger_spawns (m : Multi) (when : Time)
    (procId log : String) (hopen : m.closed = false)
    (htrig : m.RequestSizeTrigger ≤ 0) :
    (m.bufferMessage when procId log).2.1 = none ∧
    (m.bufferMessage when procId log).2.2 = true := by
  constructor
  · simp [Multi.bufferMessage, hopen]
  · simp only [Multi.bufferMessage, hopen, Bool.false_eq_true, if_false,
      Client.bufferMessage, unsyncStats, decide_eq_true_eq,
      String.length_append]
    omega

/-- C10 witness: a concrete open client with trigger 0 spawns on a
concrete append and reports no error. -/
theorem bufferMessage_zero_trigger_spawns_witness :
    (({ stat := initMultiStat
        c := { Token := "tok", b := { nFramed := 0, outbox := "" } }
        permits := 1, RequestSizeTrigger := 0, closed := false } :
         Multi).bufferMessage { utcRFC3339 := "2013-01-01T00:00:00Z" }
        "web.1" "hello").2.1 = none ∧
    (({ stat := initMultiStat
        c := { Token := "tok", b := { nFramed := 0, outbox := "" } }
        permits := 1, RequestSizeTrigger := 0, closed := false } :
         Multi).bufferMessage { utcRFC3339 := "2013-01-01T00:00:00Z" }
        "web.1" "hello").2.2 = true :=
  bufferMessage_zero_trigger_spawns
    { stat := initMultiStat
      c := { Token := "tok", b := { nFramed := 0, outbox := "" } }
      permits := 1, RequestSizeTrigger := 0, closed := false }
    { utcRFC3339 := "2013-01-01T00:00:00Z" } "web.1" "hello" rfl
    (by decide)

end Logplexc
